import Mathlib

/-
  Verification development for the Photobooth single-page application
  (src/app/page.tsx).

  The embedding below transcribes the data model and the two core
  components of the page:

  * the capture sequencer and screen state machine
    (capturePhoto, startCountdown, resetPhotos, and the UI guards of the
    rendered buttons), and
  * the layout compositor generateFinalImage
    (placement geometry per template, border drawing, background fill and
    the image-onload counting join).

  Conventions of the embedding:
  * JS numbers are modelled as exact rationals; the slider values
    (borderWidth, spacing) are small integers, on which JS double
    arithmetic is exact, and the per-template divisions such as
    (2400 - spacing * 8) / 3 are kept as exact rational divisions.
  * The 2D canvas is modelled as a total function from rational
    coordinates to a paint value; fillRect paints the half-open rectangle
    [x, x+w) x [y, y+h); drawImage of a decoded photo paints its
    placement rectangle with an image value tagged by the photo data URL
    (the per-pixel content of a photo is abstracted to its source
    string, which is enough for every claim considered here).
  * Asynchronous image-decode callbacks are modelled by an explicit
    completion order: a list of photo indices in the order in which the
    onload callbacks fire.  A promise that has not resolved is the value
    none.
-/

/-! ### Data model (src/app/page.tsx lines 12-37) -/

/-- type Screen = "start" | "template" | "camera" | "preview" (line 12). -/
inductive Screen where
  | start
  | template
  | camera
  | preview
deriving DecidableEq

/-- type Template = "strip" | "grid" | "collage" | "single" (line 13). -/
inductive Template where
  | strip
  | grid
  | collage
  | single
deriving DecidableEq

/-- interface CapturedPhoto (lines 15-19). -/
structure CapturedPhoto where
  id : String
  dataUrl : String
  timestamp : Int
deriving DecidableEq

/-- One entry of the templates configuration array (lines 21-26); the
icon field is UI-only and omitted. -/
structure TemplateInfo where
  id : Template
  name : String
  description : String
  photoCount : Nat
deriving DecidableEq

/-- const templates = [...] (lines 21-26). -/
def templates : List TemplateInfo :=
  [⟨Template.strip, "Photo Strip", "3 vertical photos", 3⟩,
   ⟨Template.grid, "Grid Layout", "2x2 photo grid", 4⟩,
   ⟨Template.collage, "Collage Style", "Creative layout", 3⟩,
   ⟨Template.single, "Single Shot", "One large photo", 1⟩]

/-- templates.find(t => t.id === selectedTemplate) (line 351). -/
def templateInfoFor (t : Template) : Option TemplateInfo :=
  templates.find? (fun ti => ti.id == t)

/-- The required photo count of a template, read off the templates
configuration array. -/
def Template.requiredCount (t : Template) : Nat :=
  ((templateInfoFor t).map TemplateInfo.photoCount).getD 0

/-- One entry of the backgrounds configuration array (lines 28-37). -/
structure Background where
  id : String
  color : String
deriving DecidableEq

/-- const backgrounds = [...] (lines 28-37). -/
def backgrounds : List Background :=
  [⟨"white", "#ffffff"⟩,
   ⟨"black", "#000000"⟩,
   ⟨"gray", "#6b7280"⟩,
   ⟨"pattern", "repeating-linear-gradient(45deg, #000 0px, #000 10px, #fff 10px, #fff 20px)"⟩]

/-- The templateStyle state object (lines 46-50). -/
structure TemplateStyle where
  borderWidth : ℚ
  spacing : ℚ
  cornerRadius : ℚ
deriving DecidableEq

/-! ### Canvas geometry -/

/-- A placement rectangle (x, y, width, height) on the output canvas. -/
structure Rect where
  x : ℚ
  y : ℚ
  w : ℚ
  h : ℚ
deriving DecidableEq

/-- canvas.width = 1600 (line 149). -/
def canvasWidth (_t : Template) : ℚ := 1600

/-- canvas.height = selectedTemplate === "strip" ? 2400 : 1600 (line 150). -/
def canvasHeight (t : Template) : ℚ :=
  if t = Template.strip then 2400 else 1600

/-- The per-photo placement rectangle computed by the switch on the
selected template inside the img.onload handler (lines 182-214). -/
def placementRect (t : Template) (spacing : ℚ) (index : ℕ) : Rect :=
  match t with
  | Template.strip =>
      let width := canvasWidth t - spacing * 4
      let height := (canvasHeight t - spacing * 8) / 3
      ⟨spacing * 2, spacing * 2 + (height + spacing * 2) * (index : ℚ), width, height⟩
  | Template.grid =>
      let width := (canvasWidth t - spacing * 6) / 2
      let height := (canvasHeight t - spacing * 6) / 2
      ⟨spacing * 2 + (width + spacing * 2) * ((index % 2 : ℕ) : ℚ),
       spacing * 2 + (height + spacing * 2) * ((index / 2 : ℕ) : ℚ), width, height⟩
  | Template.collage =>
      if index = 0 then
        ⟨spacing * 2, spacing * 2,
         canvasWidth t / 2 - spacing * 2, canvasHeight t - spacing * 4⟩
      else
        let width := canvasWidth t / 2 - spacing * 2
        let height := (canvasHeight t - spacing * 6) / 2
        ⟨canvasWidth t / 2 + spacing,
         spacing * 2 + (height + spacing * 2) * (((index - 1 : ℕ)) : ℚ), width, height⟩
  | Template.single =>
      ⟨spacing * 2, spacing * 2, canvasWidth t - spacing * 4, canvasHeight t - spacing * 4⟩

/-- The border rectangle drawn under a photo: the placement rectangle
moved up-left by borderWidth * 2 and enlarged by borderWidth * 4 in each
dimension (lines 219-224). -/
def inflateRect (r : Rect) (b : ℚ) : Rect :=
  ⟨r.x - b * 2, r.y - b * 2, r.w + b * 4, r.h + b * 4⟩

/-- Membership of a point in the half-open rectangle. -/
def rectContains (r : Rect) (x y : ℚ) : Prop :=
  r.x ≤ x ∧ x < r.x + r.w ∧ r.y ≤ y ∧ y < r.y + r.h

instance (r : Rect) (x y : ℚ) : Decidable (rectContains r x y) := by
  unfold rectContains
  infer_instance

/-- Interval-arithmetic disjointness of two rectangles. -/
def RectDisjoint (a b : Rect) : Prop :=
  a.x + a.w ≤ b.x ∨ b.x + b.w ≤ a.x ∨ a.y + a.h ≤ b.y ∨ b.y + b.h ≤ a.y

instance (a b : Rect) : Decidable (RectDisjoint a b) := by
  unfold RectDisjoint
  infer_instance

/-! ### Paints and the canvas -/

/-- The value of one canvas point: untouched (a freshly created canvas is
transparent), a solid fillStyle colour, or a pixel of a decoded photo,
abstracted by the photo's data URL. -/
inductive Paint where
  | transparent
  | solid (css : String)
  | image (dataUrl : String)
deriving DecidableEq

/-- A drawing surface: paint value at each rational coordinate. -/
def Canvas : Type := ℚ → ℚ → Paint

/-- A single drawing command issued by the onload handler. -/
inductive DrawOp where
  | fillRect (r : Rect) (css : String)
  | imageRect (r : Rect) (dataUrl : String)
deriving DecidableEq

/-- Execute one drawing command on the canvas. -/
def applyOp (c : Canvas) : DrawOp → Canvas
  | DrawOp.fillRect r css => fun x y => if rectContains r x y then Paint.solid css else c x y
  | DrawOp.imageRect r url => fun x y => if rectContains r x y then Paint.image url else c x y

/-- The drawing commands of one photo's onload handler: the black border
rectangle when borderWidth > 0 (lines 217-225), then the photo itself
(line 227). -/
def photoDrawOps (t : Template) (style : TemplateStyle) (index : ℕ) (url : String) :
    List DrawOp :=
  let r := placementRect t style.spacing index
  (if 0 < style.borderWidth then
    [DrawOp.fillRect (inflateRect r style.borderWidth) "#000000"]
  else []) ++ [DrawOp.imageRect r url]

/-- The canvas region a photo's onload handler may write: its placement
rectangle, enlarged to the border rectangle when a border is drawn. -/
def footprint (t : Template) (style : TemplateStyle) (index : ℕ) : Rect :=
  if 0 < style.borderWidth then
    inflateRect (placementRect t style.spacing index) style.borderWidth
  else placementRect t style.spacing index

/-- Draw photo number i of the sequence onto the canvas; a missing index
has no onload handler and leaves the canvas unchanged. -/
def drawPhotoOnCanvas (t : Template) (style : TemplateStyle)
    (photos : List CapturedPhoto) (c : Canvas) (i : ℕ) : Canvas :=
  match photos[i]? with
  | none => c
  | some ph => (photoDrawOps t style i ph.dataUrl).foldl applyOp c

/-- The 20x20 checkerboard tile of createPatternCanvas (lines 240-254),
repeated across the plane as ctx.createPattern(..., "repeat") does. -/
def patternPaintAt (x y : ℚ) : Paint :=
  let u : ℚ := x - 20 * ((⌊x / 20⌋ : ℤ) : ℚ)
  let v : ℚ := y - 20 * ((⌊y / 20⌋ : ℤ) : ℚ)
  if (u < 10 ∧ v < 10) ∨ (10 ≤ u ∧ 10 ≤ v) then Paint.solid "#000000"
  else Paint.solid "#ffffff"

/-- The canvas after the background fill of lines 156-167: the matching
background (if any) is filled over the whole canvas; a fresh canvas is
transparent.  Pattern creation is modelled as succeeding. -/
def backgroundCanvas (t : Template) (selectedBackground : String) : Canvas :=
  match backgrounds.find? (fun b => b.id == selectedBackground) with
  | none => fun _ _ => Paint.transparent
  | some bg =>
      if bg.id = "pattern" then
        fun x y =>
          if rectContains ⟨0, 0, canvasWidth t, canvasHeight t⟩ x y then patternPaintAt x y
          else Paint.transparent
      else
        fun x y =>
          if rectContains ⟨0, 0, canvasWidth t, canvasHeight t⟩ x y then Paint.solid bg.color
          else Paint.transparent

/-! ### The compositor join (lines 169-236) -/

/-- The mutable state of the load-and-draw join: the canvas, the counter
loadedCount, and the promise result (none while unresolved). -/
structure LoadState where
  canvas : Canvas
  loadedCount : ℕ
  result : Option Canvas

/-- One img.onload callback (lines 176-234): draw the photo (with its
border), increment loadedCount, and resolve when it reaches
totalImages = capturedPhotos.length. -/
def onImageLoad (t : Template) (style : TemplateStyle) (photos : List CapturedPhoto)
    (st : LoadState) (i : ℕ) : LoadState :=
  match photos[i]? with
  | none => st
  | some ph =>
      let c := (photoDrawOps t style i ph.dataUrl).foldl applyOp st.canvas
      { canvas := c
        loadedCount := st.loadedCount + 1
        result := if st.loadedCount + 1 = photos.length then some c else st.result }

/-- Run the onload callbacks in the given completion order. -/
def runLoads (t : Template) (style : TemplateStyle) (photos : List CapturedPhoto)
    (order : List ℕ) (st : LoadState) : LoadState :=
  order.foldl (onImageLoad t style photos) st

/-- The value a generateFinalImage promise can resolve to: the empty
string of the degenerate guards, or the encoded canvas with its
dimensions. -/
inductive CompositeResult where
  | empty
  | image (pix : Canvas) (width height : ℚ)

/-- generateFinalImage (lines 134-238), as a function of the component
state it closes over, whether the 2d context is available, and the order
in which the photo decode callbacks complete.  The outer Option is the
promise: none means the promise has not settled. -/
def generateFinalImage (selectedTemplate : Option Template)
    (capturedPhotos : List CapturedPhoto) (ctxOk : Bool)
    (selectedBackground : String) (templateStyle : TemplateStyle)
    (order : List ℕ) : Option CompositeResult :=
  match selectedTemplate with
  | none => some CompositeResult.empty
  | some t =>
      if capturedPhotos.length = 0 then some CompositeResult.empty
      else if ctxOk = false then some CompositeResult.empty
      else
        match (runLoads t templateStyle capturedPhotos order
            ⟨backgroundCanvas t selectedBackground, 0, none⟩).result with
        | some pix =>
            some (CompositeResult.image pix (canvasWidth t) (canvasHeight t))
        | none => none

/-- The paint of the resolved composite at a point, when it resolved to
an image. -/
def resultPixel : Option CompositeResult → ℚ → ℚ → Option Paint
  | some (CompositeResult.image pix _ _), x, y => some (pix x y)
  | _, _, _ => none

/-- The number of distinct vertical offsets among the first n right-half
collage photos (indices 1..n): the number of rows they are stacked in. -/
def collageRightRowCount (spacing : ℚ) (n : ℕ) : ℕ :=
  (((List.range n).map (fun k => (placementRect Template.collage spacing (k + 1)).y)).dedup).length

/-! ### Evaluation lemmas for the fixed canvas dimensions -/

theorem canvasHeight_strip : canvasHeight Template.strip = 2400 := rfl

theorem canvasHeight_grid : canvasHeight Template.grid = 1600 := rfl

theorem canvasHeight_collage : canvasHeight Template.collage = 1600 := rfl

theorem canvasHeight_single : canvasHeight Template.single = 1600 := rfl

/-! ### Behaviour of the load-count join -/

theorem onImageLoad_canvas (t : Template) (style : TemplateStyle)
    (photos : List CapturedPhoto) (st : LoadState) (i : ℕ) :
    (onImageLoad t style photos st i).canvas = drawPhotoOnCanvas t style photos st.canvas i := by
  cases hget : photos[i]? <;> simp [onImageLoad, drawPhotoOnCanvas, hget]

theorem runLoads_canvas (t : Template) (style : TemplateStyle) (photos : List CapturedPhoto) :
    ∀ (order : List ℕ) (st : LoadState),
      (runLoads t style photos order st).canvas
        = order.foldl (drawPhotoOnCanvas t style photos) st.canvas := by
  intro order
  induction order with
  | nil => intro st; rfl
  | cons i rest ih =>
      intro st
      have hstep : runLoads t style photos (i :: rest) st
          = runLoads t style photos rest (onImageLoad t style photos st i) := rfl
      rw [hstep, ih, onImageLoad_canvas]
      rfl

theorem runLoads_result_of_lt (t : Template) (style : TemplateStyle)
    (photos : List CapturedPhoto) :
    ∀ (order : List ℕ) (st : LoadState),
      st.result = none → st.loadedCount + order.length < photos.length →
      (runLoads t style photos order st).result = none := by
  intro order
  induction order with
  | nil => intro st hres _; exact hres
  | cons i rest ih =>
      intro st hres hlt
      have hstep : runLoads t style photos (i :: rest) st
          = runLoads t style photos rest (onImageLoad t style photos st i) := rfl
      rw [hstep]
      cases hget : photos[i]? with
      | none =>
          have hkeep : onImageLoad t style photos st i = st := by
            simp [onImageLoad, hget]
          rw [hkeep]
          apply ih st hres
          simp only [List.length_cons] at hlt
          omega
      | some ph =>
          apply ih
          · have hne : ¬ st.loadedCount + 1 = photos.length := by
              simp only [List.length_cons] at hlt
              omega
            simp [onImageLoad, hget, hne, hres]
          · have hcount : (onImageLoad t style photos st i).loadedCount = st.loadedCount + 1 := by
              simp [onImageLoad, hget]
            rw [hcount]
            simp only [List.length_cons] at hlt
            omega

theorem runLoads_result_of_complete (t : Template) (style : TemplateStyle)
    (photos : List CapturedPhoto) :
    ∀ (order : List ℕ) (st : LoadState),
      (∀ i ∈ order, i < photos.length) → order ≠ [] →
      st.loadedCount + order.length = photos.length →
      (runLoads t style photos order st).result
        = some ((runLoads t style photos order st).canvas) := by
  intro order
  induction order with
  | nil => intro st _ hne _; exact absurd rfl hne
  | cons i rest ih =>
      intro st hval _ hlen
      have hi : i < photos.length := hval i (List.mem_cons_self i rest)
      obtain ⟨ph, hget⟩ : ∃ ph, photos[i]? = some ph :=
            ⟨photos[i], List.getElem?_eq_getElem hi⟩
      have hstep : runLoads t style photos (i :: rest) st
          = runLoads t style photos rest (onImageLoad t style photos st i) := rfl
      rw [hstep]
      cases rest with
      | nil =>
          have hfin : st.loadedCount + 1 = photos.length := by
            simp only [List.length_cons, List.length_nil] at hlen
            omega
          simp [runLoads, onImageLoad, hget, hfin]
      | cons j rest2 =>
          apply ih
          · intro a ha
            exact hval a (List.mem_cons_of_mem _ ha)
          · exact List.cons_ne_nil j rest2
          · have hcount : (onImageLoad t style photos st i).loadedCount = st.loadedCount + 1 := by
              simp [onImageLoad, hget]
            rw [hcount]
            simp only [List.length_cons] at hlen ⊢
            omega

theorem gen_eq_none_of_incomplete (t : Template) (photos : List CapturedPhoto)
    (bg : String) (style : TemplateStyle) (order : List ℕ)
    (hne : photos ≠ []) (hlt : order.length < photos.length) :
    generateFinalImage (some t) photos true bg style order = none := by
  have hp : ¬ photos.length = 0 := by
    simpa [List.length_eq_zero] using hne
  have hres := runLoads_result_of_lt t style photos order
    ⟨backgroundCanvas t bg, 0, none⟩ rfl (by simpa using hlt)
  simp [generateFinalImage, hp, hres]

theorem gen_eq_image_of_complete (t : Template) (photos : List CapturedPhoto)
    (bg : String) (style : TemplateStyle) (order : List ℕ)
    (hne : photos ≠ []) (hval : ∀ i ∈ order, i < photos.length)
    (hlen : order.length = photos.length) :
    generateFinalImage (some t) photos true bg style order
      = some (CompositeResult.image
          (order.foldl (drawPhotoOnCanvas t style photos) (backgroundCanvas t bg))
          (canvasWidth t) (canvasHeight t)) := by
  have hp : ¬ photos.length = 0 := by
    simpa [List.length_eq_zero] using hne
  have hone : order ≠ [] := by
    intro h
    rw [h] at hlen
    exact hp hlen.symm
  have hres := runLoads_result_of_complete t style photos order
    ⟨backgroundCanvas t bg, 0, none⟩ hval hone (by simpa using hlen)
  have hcv := runLoads_canvas t style photos order ⟨backgroundCanvas t bg, 0, none⟩
  rw [hcv] at hres
  simp [generateFinalImage, hp, hres]

/-- C8: generateFinalImage resolves to the empty result exactly when no
template is selected, the photo sequence is empty, or the 2d context is
unavailable (the three resolve-empty guards of lines 136-146); in every
other situation the promise is either still pending or resolves to a
composed image, never to the empty result. -/
theorem c8_empty_guards (selectedTemplate : Option Template)
    (photos : List CapturedPhoto) (ctxOk : Bool) (bg : String)
    (style : TemplateStyle) (order : List ℕ) :
    generateFinalImage selectedTemplate photos ctxOk bg style order
        = some CompositeResult.empty ↔
      (selectedTemplate = none ∨ photos = [] ∨ ctxOk = false) := by
  cases selectedTemplate with
  | none => simp [generateFinalImage]
  | some t =>
      by_cases hp : photos.length = 0
      · simp [generateFinalImage, hp, List.length_eq_zero.mp hp]
      · cases ctxOk with
        | false => simp [generateFinalImage, hp]
        | true =>
            have hne : photos ≠ [] := by
              intro h
              exact hp (by simp [h])
            simp only [generateFinalImage, hp, if_false, Bool.true_eq_false, reduceCtorEq,
              or_false, false_or, hne, iff_false]
            split
            · intro h
              simp at h
            · intro h
              simp at h

/-- C9: whenever generateFinalImage resolves to a composed image, the
output canvas is exactly 1600 x 2400 for the strip template and
1600 x 1600 for grid, collage and single (lines 149-150). -/
theorem c9_canvas_dims (t : Template) (photos : List CapturedPhoto) (ctxOk : Bool)
    (bg : String) (style : TemplateStyle) (order : List ℕ) (pix : Canvas) (w h : ℚ) :
    generateFinalImage (some t) photos ctxOk bg style order
        = some (CompositeResult.image pix w h) →
    w = 1600 ∧ h = (if t = Template.strip then 2400 else 1600) := by
  intro hgen
  by_cases hp : photos.length = 0
  · simp [generateFinalImage, hp] at hgen
  · cases ctxOk with
    | false => simp [generateFinalImage, hp] at hgen
    | true =>
        simp only [generateFinalImage, hp, if_false, Bool.true_eq_false, reduceCtorEq] at hgen
        split at hgen
        · rw [Option.some_inj] at hgen
          cases hgen
          exact ⟨rfl, rfl⟩
        · exact absurd hgen (by simp)

/-- Witness for C9 at a concrete single-template run with one photo. -/
theorem c9_canvas_dims_witness :
    (1600 : ℚ) = 1600 ∧
      ((1600 : ℚ) = if Template.single = Template.strip then 2400 else 1600) :=
  c9_canvas_dims Template.single [⟨"1", "d", 0⟩] true "white" ⟨2, 4, 0⟩ [0] _ 1600 1600 rfl

/-- C4: with a selected template and a nonempty photo sequence, the
composite promise is still pending after every proper prefix of the
decode completion order, and resolves exactly on the last completion, to
the canvas on which every photo of the sequence has been drawn
(the loadedCount join of lines 170-233), whatever the completion order. -/
theorem c4_join_resolution (t : Template) (photos : List CapturedPhoto)
    (bg : String) (style : TemplateStyle) (order : List ℕ) (k : ℕ) :
    photos ≠ [] → order.Perm (List.range photos.length) → k < order.length →
    generateFinalImage (some t) photos true bg style (order.take k) = none ∧
    generateFinalImage (some t) photos true bg style order
      = some (CompositeResult.image
          (order.foldl (drawPhotoOnCanvas t style photos) (backgroundCanvas t bg))
          (canvasWidth t) (canvasHeight t)) := by
  intro hne hperm hk
  have hlen : order.length = photos.length := by
    simpa using hperm.length_eq
  have hval : ∀ i ∈ order, i < photos.length := by
    intro i hi
    exact List.mem_range.mp (hperm.mem_iff.mp hi)
  constructor
  · apply gen_eq_none_of_incomplete t photos bg style _ hne
    rw [List.length_take]
    omega
  · exact gen_eq_image_of_complete t photos bg style order hne hval hlen

/-- Witness for C4: one photo, the completion order consisting of its
single decode, checked at the empty proper prefix. -/
theorem c4_join_resolution_witness :
    generateFinalImage (some Template.single) [⟨"1", "d", 0⟩] true "white" ⟨2, 4, 0⟩
        (([0] : List ℕ).take 0) = none ∧
    generateFinalImage (some Template.single) [⟨"1", "d", 0⟩] true "white" ⟨2, 4, 0⟩ [0]
      = some (CompositeResult.image
          (([0] : List ℕ).foldl
            (drawPhotoOnCanvas Template.single ⟨2, 4, 0⟩ [⟨"1", "d", 0⟩])
            (backgroundCanvas Template.single "white"))
          (canvasWidth Template.single) (canvasHeight Template.single)) :=
  c4_join_resolution Template.single [⟨"1", "d", 0⟩] "white" ⟨2, 4, 0⟩ [0] 0
    (by decide) (by decide) (by decide)

/-- C10: if one photo's decode callback never fires (index j missing from
the set of completions), the promise of generateFinalImage never
settles: every event history consisting of distinct completions of the
other photos leaves it pending, because completions are only counted in
the onload handler and there is no error handler or timeout. -/
theorem c10_missing_decode_pending (t : Template) (photos : List CapturedPhoto)
    (bg : String) (style : TemplateStyle) (j : ℕ) (order : List ℕ) :
    j < photos.length → j ∉ order → order.Nodup →
    (∀ i ∈ order, i < photos.length) →
    generateFinalImage (some t) photos true bg style order = none := by
  intro hj hjmem hnd hval
  have hne : photos ≠ [] := by
    intro h
    rw [h] at hj
    exact absurd hj (by simp)
  have hsub : order.toFinset ⊆ (Finset.range photos.length).erase j := by
    intro a ha
    have ham := List.mem_toFinset.mp ha
    refine Finset.mem_erase.mpr ⟨?_, Finset.mem_range.mpr (hval a ham)⟩
    intro h
    exact hjmem (h ▸ ham)
  have hcard := Finset.card_le_card hsub
  rw [List.toFinset_card_of_nodup hnd,
    Finset.card_erase_of_mem (Finset.mem_range.mpr hj), Finset.card_range] at hcard
  exact gen_eq_none_of_incomplete t photos bg style order hne (by omega)

/-- Witness for C10: a single photo whose decode never completes. -/
theorem c10_missing_decode_pending_witness :
    generateFinalImage (some Template.grid) [⟨"1", "d", 0⟩] true "white" ⟨2, 4, 0⟩ []
      = none :=
  c10_missing_decode_pending Template.grid [⟨"1", "d", 0⟩] "white" ⟨2, 4, 0⟩ 0 []
    (by decide) (by decide) (by decide) (by decide)

/-! ### Commutation of disjoint photo draws -/

theorem draw_point_spec (t : Template) (style : TemplateStyle)
    (photos : List CapturedPhoto) (c : Canvas) (i : ℕ) (x y : ℚ) :
    drawPhotoOnCanvas t style photos c i x y =
      match photos[i]? with
      | none => c x y
      | some ph =>
          if rectContains (placementRect t style.spacing i) x y then Paint.image ph.dataUrl
          else if 0 < style.borderWidth ∧
              rectContains (inflateRect (placementRect t style.spacing i) style.borderWidth)
                x y then
            Paint.solid "#000000"
          else c x y := by
  cases hget : photos[i]? with
  | none => simp [drawPhotoOnCanvas, hget]
  | some ph =>
      by_cases hb : 0 < style.borderWidth
      · simp [drawPhotoOnCanvas, hget, photoDrawOps, hb, applyOp]
      · simp [drawPhotoOnCanvas, hget, photoDrawOps, hb, applyOp]

theorem rectContains_inflate_of_contains {r : Rect} {b x y : ℚ} (hb : 0 < b)
    (h : rectContains r x y) : rectContains (inflateRect r b) x y := by
  obtain ⟨h1, h2, h3, h4⟩ := h
  refine ⟨?_, ?_, ?_, ?_⟩ <;> simp only [inflateRect] <;> linarith

theorem rectDisjoint_not_contains {a b : Rect} {x y : ℚ} (hd : RectDisjoint a b)
    (ha : rectContains a x y) : ¬ rectContains b x y := by
  rintro ⟨hb1, hb2, hb3, hb4⟩
  obtain ⟨ha1, ha2, ha3, ha4⟩ := ha
  rcases hd with h | h | h | h <;> linarith

theorem draw_eq_outside (t : Template) (style : TemplateStyle)
    (photos : List CapturedPhoto) (i : ℕ) {x y : ℚ}
    (hout : ¬ rectContains (footprint t style i) x y) (c : Canvas) :
    drawPhotoOnCanvas t style photos c i x y = c x y := by
  rw [draw_point_spec]
  cases hget : photos[i]? with
  | none => rfl
  | some ph =>
      by_cases hb : 0 < style.borderWidth
      · have hfoot : footprint t style i
            = inflateRect (placementRect t style.spacing i) style.borderWidth := by
          simp [footprint, hb]
        rw [hfoot] at hout
        have hnr : ¬ rectContains (placementRect t style.spacing i) x y := by
          intro h
          exact hout (rectContains_inflate_of_contains hb h)
        simp [hnr, hout]
      · have hfoot : footprint t style i = placementRect t style.spacing i := by
          simp [footprint, hb]
        rw [hfoot] at hout
        simp [hout, hb]

theorem draw_eq_of_inside (t : Template) (style : TemplateStyle)
    (photos : List CapturedPhoto) {i : ℕ} {ph : CapturedPhoto}
    (hget : photos[i]? = some ph) {x y : ℚ}
    (hin : rectContains (footprint t style i) x y) (c c' : Canvas) :
    drawPhotoOnCanvas t style photos c i x y
      = drawPhotoOnCanvas t style photos c' i x y := by
  rw [draw_point_spec, draw_point_spec, hget]
  by_cases hr : rectContains (placementRect t style.spacing i) x y
  · simp [hr]
  · by_cases hb : 0 < style.borderWidth
    · have hfoot : footprint t style i
          = inflateRect (placementRect t style.spacing i) style.borderWidth := by
        simp [footprint, hb]
      rw [hfoot] at hin
      simp [hr, hb, hin]
    · have hfoot : footprint t style i = placementRect t style.spacing i := by
        simp [footprint, hb]
      rw [hfoot] at hin
      exact absurd hin hr

theorem draw_invalid (t : Template) (style : TemplateStyle)
    (photos : List CapturedPhoto) {i : ℕ} (hget : photos[i]? = none) (c : Canvas) :
    drawPhotoOnCanvas t style photos c i = c := by
  simp [drawPhotoOnCanvas, hget]

theorem draw_comm (t : Template) (style : TemplateStyle)
    (photos : List CapturedPhoto) (i j : ℕ)
    (hd : RectDisjoint (footprint t style i) (footprint t style j)) (c : Canvas) :
    drawPhotoOnCanvas t style photos (drawPhotoOnCanvas t style photos c i) j
      = drawPhotoOnCanvas t style photos (drawPhotoOnCanvas t style photos c j) i := by
  cases hgi : photos[i]? with
  | none => rw [draw_invalid t style photos hgi, draw_invalid t style photos hgi]
  | some phi =>
      cases hgj : photos[j]? with
      | none => rw [draw_invalid t style photos hgj, draw_invalid t style photos hgj]
      | some phj =>
          funext x y
          by_cases hxi : rectContains (footprint t style i) x y
          · have hxj : ¬ rectContains (footprint t style j) x y :=
              rectDisjoint_not_contains hd hxi
            calc drawPhotoOnCanvas t style photos (drawPhotoOnCanvas t style photos c i) j x y
                = drawPhotoOnCanvas t style photos c i x y :=
                  draw_eq_outside t style photos j hxj _
              _ = drawPhotoOnCanvas t style photos (drawPhotoOnCanvas t style photos c j) i x y :=
                  draw_eq_of_inside t style photos hgi hxi _ _
          · by_cases hxj : rectContains (footprint t style j) x y
            · calc drawPhotoOnCanvas t style photos (drawPhotoOnCanvas t style photos c i) j x y
                  = drawPhotoOnCanvas t style photos (drawPhotoOnCanvas t style photos c i) j x y := rfl
                _ = drawPhotoOnCanvas t style photos c j x y :=
                    draw_eq_of_inside t style photos hgj hxj _ _
                _ = drawPhotoOnCanvas t style photos (drawPhotoOnCanvas t style photos c j) i x y :=
                    (draw_eq_outside t style photos i hxi _).symm
            · rw [draw_eq_outside t style photos j hxj, draw_eq_outside t style photos i hxi,
                draw_eq_outside t style photos i hxi, draw_eq_outside t style photos j hxj]

theorem drawFold_perm (t : Template) (style : TemplateStyle)
    (photos : List CapturedPhoto) :
    ∀ {o₁ o₂ : List ℕ}, o₁.Perm o₂ →
    (∀ i ∈ o₁, ∀ j ∈ o₁, i ≠ j →
      RectDisjoint (footprint t style i) (footprint t style j)) →
    ∀ c : Canvas, o₁.foldl (drawPhotoOnCanvas t style photos) c
        = o₂.foldl (drawPhotoOnCanvas t style photos) c := by
  intro o₁ o₂ hperm
  induction hperm with
  | nil =>
      intro _ c
      rfl
  | cons a hp ih =>
      intro hd c
      simp only [List.foldl_cons]
      exact ih
        (fun i hi j hj hij => hd i (List.mem_cons_of_mem _ hi) j (List.mem_cons_of_mem _ hj) hij)
        _
  | swap a b l =>
      intro hd c
      simp only [List.foldl_cons]
      have hcomm : drawPhotoOnCanvas t style photos (drawPhotoOnCanvas t style photos c b) a
          = drawPhotoOnCanvas t style photos (drawPhotoOnCanvas t style photos c a) b := by
        by_cases hab : b = a
        · subst hab
          rfl
        · exact draw_comm t style photos b a (hd b (by simp) a (by simp) hab) c
      rw [hcomm]
  | trans h₁ _h₂ ih₁ ih₂ =>
      intro hd c
      rw [ih₁ hd c,
        ih₂ (fun i hi j hj hij => hd i (h₁.mem_iff.mpr hi) j (h₁.mem_iff.mpr hj) hij) c]

/-- C3 counterexample: with the strip template, three photos,
borderWidth = 10 and spacing = 0 (both inside the claimed ranges
[0,10] and [0,20]), the completion orders 0,1,2 and 1,0,2 - both
permutations of the photo indices - give composites that differ at the
canvas point (100, 790): photo 1's border rectangle overlaps photo 0's
placement rectangle, so whichever onload fires last wins there.  The
composite is therefore not independent of decode completion order. -/
theorem c3_counterexample :
    ([0, 1, 2] : List ℕ).Perm (List.range 3) ∧
    ([1, 0, 2] : List ℕ).Perm (List.range 3) ∧
    resultPixel (generateFinalImage (some Template.strip)
        [⟨"1", "d0", 0⟩, ⟨"2", "d1", 0⟩, ⟨"3", "d2", 0⟩] true "white" ⟨10, 0, 0⟩
        [0, 1, 2]) 100 790
      ≠ resultPixel (generateFinalImage (some Template.strip)
        [⟨"1", "d0", 0⟩, ⟨"2", "d1", 0⟩, ⟨"3", "d2", 0⟩] true "white" ⟨10, 0, 0⟩
        [1, 0, 2]) 100 790 := by
  refine ⟨by decide, by decide, ?_⟩
  have h1 : resultPixel (generateFinalImage (some Template.strip)
      [⟨"1", "d0", 0⟩, ⟨"2", "d1", 0⟩, ⟨"3", "d2", 0⟩] true "white" ⟨10, 0, 0⟩
      [0, 1, 2]) 100 790 = some (Paint.solid "#000000") := by
    norm_num [generateFinalImage, runLoads, onImageLoad, photoDrawOps, applyOp,
      backgroundCanvas, backgrounds, placementRect, inflateRect, canvasWidth,
      canvasHeight_strip, resultPixel, rectContains, List.find?]
  have h2 : resultPixel (generateFinalImage (some Template.strip)
      [⟨"1", "d0", 0⟩, ⟨"2", "d1", 0⟩, ⟨"3", "d2", 0⟩] true "white" ⟨10, 0, 0⟩
      [1, 0, 2]) 100 790 = some (Paint.image "d0") := by
    norm_num [generateFinalImage, runLoads, onImageLoad, photoDrawOps, applyOp,
      backgroundCanvas, backgrounds, placementRect, inflateRect, canvasWidth,
      canvasHeight_strip, resultPixel, rectContains, List.find?]
  rw [h1, h2]
  simp

/-- C3 (amended): the composite of generateFinalImage is independent of
the decode completion order whenever the written regions are pairwise
disjoint - each photo's footprint being its placement rectangle,
enlarged to the border rectangle when borderWidth > 0.  For two
completion orders that are permutations of one another (each onload
firing at most once, only for existing photos), the resulting promise
state is identical.  Without the disjointness proviso the claim fails;
see the counterexample. -/
theorem c3_order_independence (t : Template) (photos : List CapturedPhoto)
    (ctxOk : Bool) (bg : String) (style : TemplateStyle) (o₁ o₂ : List ℕ) :
    o₁.Perm o₂ → o₁.Nodup → (∀ i ∈ o₁, i < photos.length) →
    (∀ i ∈ o₁, ∀ j ∈ o₁, i ≠ j →
      RectDisjoint (footprint t style i) (footprint t style j)) →
    generateFinalImage (some t) photos ctxOk bg style o₁
      = generateFinalImage (some t) photos ctxOk bg style o₂ := by
  intro hperm hnd hval hd
  by_cases hp : photos.length = 0
  · simp [generateFinalImage, hp]
  · cases ctxOk with
    | false => simp [generateFinalImage, hp]
    | true =>
        have hne : photos ≠ [] := by
          intro h
          exact hp (by simp [h])
        have hle : o₁.length ≤ photos.length := by
          have hsub : o₁.toFinset ⊆ Finset.range photos.length := by
            intro a ha
            exact Finset.mem_range.mpr (hval a (List.mem_toFinset.mp ha))
          have hcard := Finset.card_le_card hsub
          rwa [List.toFinset_card_of_nodup hnd, Finset.card_range] at hcard
        rcases lt_or_eq_of_le hle with hlt | heq
        · rw [gen_eq_none_of_incomplete t photos bg style o₁ hne hlt,
            gen_eq_none_of_incomplete t photos bg style o₂ hne (by rwa [← hperm.length_eq])]
        · rw [gen_eq_image_of_complete t photos bg style o₁ hne hval heq,
            gen_eq_image_of_complete t photos bg style o₂ hne
              (fun i hi => hval i (hperm.mem_iff.mpr hi)) (by rwa [← hperm.length_eq]),
            drawFold_perm t style photos hperm hd _]

/-- Witness for C3 (amended): strip with borderWidth 2, spacing 4 -
the three border rectangles touch but do not overlap - run with the
completion orders 0,1,2 and 2,1,0. -/
theorem c3_order_independence_witness :
    generateFinalImage (some Template.strip)
        [⟨"1", "d0", 0⟩, ⟨"2", "d1", 0⟩, ⟨"3", "d2", 0⟩] true "white" ⟨2, 4, 0⟩
        [0, 1, 2]
      = generateFinalImage (some Template.strip)
        [⟨"1", "d0", 0⟩, ⟨"2", "d1", 0⟩, ⟨"3", "d2", 0⟩] true "white" ⟨2, 4, 0⟩
        [2, 1, 0] :=
  c3_order_independence Template.strip
    [⟨"1", "d0", 0⟩, ⟨"2", "d1", 0⟩, ⟨"3", "d2", 0⟩] true "white" ⟨2, 4, 0⟩
    [0, 1, 2] [2, 1, 0] (by decide) (by decide) (by decide)
    (by norm_num [footprint, placementRect, inflateRect, canvasWidth, canvasHeight_strip,
      RectDisjoint])

/-- C7: strip placement (lines 183-188): width is the canvas width minus
4 x spacing, height is (canvas height minus 8 x spacing) / 3, x is
2 x spacing, and y accumulates per index as 2 x spacing +
(height + 2 x spacing) x index; the strip canvas is 1600 x 2400, and at
spacing 4 each of the stacked rectangles has height (2400 - 32) / 3. -/
theorem c7_strip_layout (s : ℚ) (i : ℕ) :
    canvasWidth Template.strip = 1600 ∧
    canvasHeight Template.strip = 2400 ∧
    (placementRect Template.strip s i).w = canvasWidth Template.strip - 4 * s ∧
    (placementRect Template.strip s i).h = (canvasHeight Template.strip - 8 * s) / 3 ∧
    (placementRect Template.strip s i).x = 2 * s ∧
    (placementRect Template.strip s i).y
      = 2 * s + ((placementRect Template.strip s i).h + 2 * s) * (i : ℚ) ∧
    (placementRect Template.strip 4 i).h = (2400 - 32) / 3 := by
  refine ⟨rfl, rfl, ?_, ?_, ?_, ?_, ?_⟩ <;>
    simp only [placementRect, canvasWidth, canvasHeight_strip] <;> ring

/-- C6: for any template, index and spacing, a positive borderWidth b
makes the onload handler first draw one solid black rectangle whose
top-left is the photo rectangle's top-left minus 2 x b in each axis and
whose width and height exceed the photo rectangle's by 4 x b, then the
photo on top of it; at b = 0 no border rectangle is drawn
(lines 216-227). -/
theorem c6_border_inflation (t : Template) (i : ℕ) (b sp cr : ℚ) (url : String) :
    (0 < b → photoDrawOps t ⟨b, sp, cr⟩ i url =
      [DrawOp.fillRect ⟨(placementRect t sp i).x - 2 * b, (placementRect t sp i).y - 2 * b,
          (placementRect t sp i).w + 4 * b, (placementRect t sp i).h + 4 * b⟩ "#000000",
        DrawOp.imageRect (placementRect t sp i) url]) ∧
    (b = 0 → photoDrawOps t ⟨b, sp, cr⟩ i url
      = [DrawOp.imageRect (placementRect t sp i) url]) := by
  constructor
  · intro hb
    simp only [photoDrawOps, inflateRect, hb, if_true, List.cons_append, List.nil_append]
    have hx : (placementRect t sp i).x - b * 2 = (placementRect t sp i).x - 2 * b := by ring
    have hy : (placementRect t sp i).y - b * 2 = (placementRect t sp i).y - 2 * b := by ring
    have hw : (placementRect t sp i).w + b * 4 = (placementRect t sp i).w + 4 * b := by ring
    have hh : (placementRect t sp i).h + b * 4 = (placementRect t sp i).h + 4 * b := by ring
    rw [hx, hy, hw, hh]
  · intro hb
    simp [photoDrawOps, hb]

/-- Witness for C6 at the single template, borderWidth 1, spacing 0. -/
theorem c6_border_inflation_witness :
    photoDrawOps Template.single ⟨1, 0, 0⟩ 0 "d" =
      [DrawOp.fillRect ⟨(placementRect Template.single 0 0).x - 2 * 1,
          (placementRect Template.single 0 0).y - 2 * 1,
          (placementRect Template.single 0 0).w + 4 * 1,
          (placementRect Template.single 0 0).h + 4 * 1⟩ "#000000",
        DrawOp.imageRect (placementRect Template.single 0 0) "d"] :=
  (c6_border_inflation Template.single 0 1 0 0 "d").1 (by norm_num)

/-- C5 counterexample: for the canonical collage sequence of length 3
(n + 1 with n = 2 right-half photos), the claim predicts the photos at
indices 1..2 stacked in n - 1 = 1 equal row, but the code (lines
195-207) gives them the fixed height (canvasHeight - 6 x spacing) / 2
and distinct vertical offsets: at spacing 4 they sit at two distinct
rows (y = 8 and y = 804) of equal height, so the number of rows is 2,
not 2 - 1. -/
theorem c5_counterexample :
    collageRightRowCount 4 2 = 2 ∧
    (placementRect Template.collage 4 1).h = (placementRect Template.collage 4 2).h ∧
    (2 : ℕ) ≠ 2 - 1 := by
  refine ⟨?_, ?_, by decide⟩
  · norm_num [collageRightRowCount, placementRect, canvasWidth, canvasHeight_collage,
      List.range_succ, List.dedup_cons_of_not_mem, List.dedup_nil]
  · norm_num [placementRect, canvasWidth, canvasHeight_collage]

/-- C5 (amended): collage placement (lines 195-207): the photo at index
0 occupies the full-height left half (top-left 2 x spacing, width half
the canvas minus 2 x spacing, height the canvas minus 4 x spacing);
every photo at index i >= 1 occupies the right half at the fixed height
(canvasHeight - 6 x spacing) / 2 - half-canvas rows, independent of the
sequence length - stacked by index at vertical offset 2 x spacing +
(height + 2 x spacing) x (i - 1).  All right-half photos have equal
heights, and for the canonical 3-photo collage the two right rows
exactly fill the canvas down to the 2 x spacing bottom margin; the rows
number 2, not (n - 1). -/
theorem c5_collage_layout (s : ℚ) (i : ℕ) (hi : 1 ≤ i) :
    placementRect Template.collage s 0
      = ⟨2 * s, 2 * s, canvasWidth Template.collage / 2 - 2 * s,
          canvasHeight Template.collage - 4 * s⟩ ∧
    placementRect Template.collage s i
      = ⟨canvasWidth Template.collage / 2 + s,
          2 * s + ((canvasHeight Template.collage - 6 * s) / 2 + 2 * s) * ((i - 1 : ℕ) : ℚ),
          canvasWidth Template.collage / 2 - 2 * s,
          (canvasHeight Template.collage - 6 * s) / 2⟩ ∧
    (placementRect Template.collage s i).h = (placementRect Template.collage s 1).h ∧
    (placementRect Template.collage s 2).y + (placementRect Template.collage s 2).h
      = canvasHeight Template.collage - 2 * s := by
  have hne : i ≠ 0 := by omega
  refine ⟨?_, ?_, ?_, ?_⟩
  · simp only [placementRect, canvasWidth, canvasHeight_collage, if_true]
    exact (Rect.mk.injEq _ _ _ _ _ _ _ _).mpr ⟨by ring, by ring, by ring, by ring⟩
  · simp only [placementRect, canvasWidth, canvasHeight_collage, hne, if_false, if_neg hne]
    exact (Rect.mk.injEq _ _ _ _ _ _ _ _).mpr ⟨by ring, by ring, by ring, by ring⟩
  · simp [placementRect, hne]
  · simp only [placementRect, canvasWidth, canvasHeight_collage]
    norm_num
    ring

/-- Witness for C5 (amended) at spacing 4 and right-half index 1. -/
theorem c5_collage_layout_witness :
    placementRect Template.collage 4 0
      = ⟨2 * 4, 2 * 4, canvasWidth Template.collage / 2 - 2 * 4,
          canvasHeight Template.collage - 4 * 4⟩ ∧
    placementRect Template.collage 4 1
      = ⟨canvasWidth Template.collage / 2 + 4,
          2 * 4 + ((canvasHeight Template.collage - 6 * 4) / 2 + 2 * 4) * ((1 - 1 : ℕ) : ℚ),
          canvasWidth Template.collage / 2 - 2 * 4,
          (canvasHeight Template.collage - 6 * 4) / 2⟩ ∧
    (placementRect Template.collage 4 1).h = (placementRect Template.collage 4 1).h ∧
    (placementRect Template.collage 4 2).y + (placementRect Template.collage 4 2).h
      = canvasHeight Template.collage - 2 * 4 :=
  c5_collage_layout 4 1 (by decide)

/-! ### The capture sequencer and screen state machine -/

/-- The component state relevant to capturing (lines 40-50), together
with the number of live countdown intervals registered by
startCountdown and not yet cleared. -/
structure BoothState where
  currentScreen : Screen
  selectedTemplate : Option Template
  capturedPhotos : List CapturedPhoto
  currentPhotoIndex : ℕ
  countdown : Option ℤ
  timers : ℕ
deriving DecidableEq

/-- const remainingPhotos = template ? template.photoCount -
capturedPhotos.length : 0 (lines 351-352), as the exact integer the JS
arithmetic produces (it goes negative when more photos exist than the
template requires). -/
def remainingPhotos (s : BoothState) : ℤ :=
  match s.selectedTemplate with
  | none => 0
  | some t =>
      match templateInfoFor t with
      | none => 0
      | some ti => (ti.photoCount : ℤ) - s.capturedPhotos.length

/-- capturePhoto (lines 78-106): appends a new photo and advances the
position counter; silently a no-op when the video/canvas refs are not
mounted, which is exactly when the camera screen is not being
rendered. -/
def capturePhotoFn (s : BoothState) (ph : CapturedPhoto) : BoothState :=
  if s.currentScreen = Screen.camera then
    { s with capturedPhotos := s.capturedPhotos ++ [ph], currentPhotoIndex := s.currentPhotoIndex + 1 }
  else s

/-- startCountdown (lines 108-120): unconditionally sets the countdown
to 3 and registers a fresh interval timer.  There is no guard against a
countdown already running. -/
def startCountdownFn (s : BoothState) : BoothState :=
  { s with countdown := some 3, timers := s.timers + 1 }

/-- One tick of a live interval timer: the setCountdown updater of
lines 111-118.  At null or a value at most 1 it clears this interval,
performs a capture and resets the countdown; otherwise it decrements. -/
def timerTickFn (s : BoothState) (ph : CapturedPhoto) : BoothState :=
  match s.countdown with
  | none => { capturePhotoFn s ph with countdown := none, timers := s.timers - 1 }
  | some p =>
      if p ≤ 1 then { capturePhotoFn s ph with countdown := none, timers := s.timers - 1 }
      else { s with countdown := some (p - 1) }

/-- resetPhotos (lines 122-125). -/
def resetPhotosFn (s : BoothState) : BoothState :=
  { s with capturedPhotos := [], currentPhotoIndex := 0 }

/-- One user- or timer-driven transition of the page, with exactly the
guards the rendered UI enforces: the template cards (lines 314-320)
select a template and move to the camera screen without any reset; the
shutter button (lines 380-387) is disabled while a countdown runs or
remainingPhotos is exactly 0; the retry button resets; the preview
button appears only at remainingPhotos = 0 (line 427); NEW SESSION
(lines 562-573) clears everything. -/
inductive Step : BoothState → BoothState → Prop where
  | startSession (s : BoothState) :
      s.currentScreen = Screen.start →
      Step s { s with currentScreen := Screen.template }
  | selectTemplate (s : BoothState) (t : Template) :
      s.currentScreen = Screen.template →
      Step s { s with selectedTemplate := some t, currentScreen := Screen.camera }
  | backToStart (s : BoothState) :
      s.currentScreen = Screen.template →
      Step s { s with currentScreen := Screen.start }
  | pressShutter (s : BoothState) :
      s.currentScreen = Screen.camera → s.countdown = none → remainingPhotos s ≠ 0 →
      Step s (startCountdownFn s)
  | timerFires (s : BoothState) (ph : CapturedPhoto) :
      1 ≤ s.timers →
      Step s (timerTickFn s ph)
  | pressRetry (s : BoothState) :
      s.currentScreen = Screen.camera →
      Step s (resetPhotosFn s)
  | backToTemplates (s : BoothState) :
      s.currentScreen = Screen.camera →
      Step s { s with currentScreen := Screen.template }
  | openPreview (s : BoothState) :
      s.currentScreen = Screen.camera → remainingPhotos s = 0 →
      Step s { s with currentScreen := Screen.preview }
  | newSession (s : BoothState) :
      s.currentScreen = Screen.preview →
      Step s { s with capturedPhotos := [], currentPhotoIndex := 0, selectedTemplate := none, currentScreen := Screen.start }

/-- The initial component state (lines 40-44). -/
def initState : BoothState := ⟨Screen.start, none, [], 0, none, 0⟩

/-- A state the page can reach from its initial state. -/
def Reachable (s : BoothState) : Prop := Relation.ReflTransGen Step initState s

/-- The transition relation amended so that a template is only ever
selected while the captured-photo sequence is empty; all other
transitions are exactly those of Step. -/
inductive StepR : BoothState → BoothState → Prop where
  | startSession (s : BoothState) :
      s.currentScreen = Screen.start →
      StepR s { s with currentScreen := Screen.template }
  | selectTemplate (s : BoothState) (t : Template) :
      s.currentScreen = Screen.template → s.capturedPhotos = [] →
      StepR s { s with selectedTemplate := some t, currentScreen := Screen.camera }
  | backToStart (s : BoothState) :
      s.currentScreen = Screen.template →
      StepR s { s with currentScreen := Screen.start }
  | pressShutter (s : BoothState) :
      s.currentScreen = Screen.camera → s.countdown = none → remainingPhotos s ≠ 0 →
      StepR s (startCountdownFn s)
  | timerFires (s : BoothState) (ph : CapturedPhoto) :
      1 ≤ s.timers →
      StepR s (timerTickFn s ph)
  | pressRetry (s : BoothState) :
      s.currentScreen = Screen.camera →
      StepR s (resetPhotosFn s)
  | backToTemplates (s : BoothState) :
      s.currentScreen = Screen.camera →
      StepR s { s with currentScreen := Screen.template }
  | openPreview (s : BoothState) :
      s.currentScreen = Screen.camera → remainingPhotos s = 0 →
      StepR s { s with currentScreen := Screen.preview }
  | newSession (s : BoothState) :
      s.currentScreen = Screen.preview →
      StepR s { s with capturedPhotos := [], currentPhotoIndex := 0, selectedTemplate := none, currentScreen := Screen.start }

/-- Reachability under the amended selection discipline. -/
def ReachableR (s : BoothState) : Prop := Relation.ReflTransGen StepR initState s

theorem requiredCount_pos (t : Template) : 1 ≤ t.requiredCount := by
  cases t <;> decide

theorem remainingPhotos_eq (s : BoothState) (t : Template)
    (h : s.selectedTemplate = some t) :
    remainingPhotos s = (t.requiredCount : ℤ) - s.capturedPhotos.length := by
  simp only [remainingPhotos, h]
  cases t <;> rfl

theorem capturePhotoFn_screen (s : BoothState) (ph : CapturedPhoto) :
    (capturePhotoFn s ph).currentScreen = s.currentScreen := by
  unfold capturePhotoFn
  split <;> rfl

theorem capturePhotoFn_template (s : BoothState) (ph : CapturedPhoto) :
    (capturePhotoFn s ph).selectedTemplate = s.selectedTemplate := by
  unfold capturePhotoFn
  split <;> rfl

theorem capturePhotoFn_photos (s : BoothState) (ph : CapturedPhoto) :
    (capturePhotoFn s ph).capturedPhotos
      = if s.currentScreen = Screen.camera then s.capturedPhotos ++ [ph]
        else s.capturedPhotos := by
  unfold capturePhotoFn
  split <;> simp_all

/-- The inductive invariant of the amended system: at most one live
interval, live exactly while a countdown value is set; photos only with
a selected template; a template is always selected on the camera
screen; no countdown on the preview screen; and the sequence-length
bound, strict while a countdown is pending. -/
def BoothInv (s : BoothState) : Prop :=
  s.timers ≤ 1 ∧
  (s.countdown = none ↔ s.timers = 0) ∧
  (s.selectedTemplate = none → s.capturedPhotos = []) ∧
  (s.currentScreen = Screen.camera → s.selectedTemplate ≠ none) ∧
  (s.currentScreen = Screen.preview → s.countdown = none) ∧
  ∀ t, s.selectedTemplate = some t →
    s.capturedPhotos.length ≤ t.requiredCount ∧
    (s.countdown ≠ none → s.capturedPhotos.length < t.requiredCount)

theorem boothInv_init : BoothInv initState := by
  refine ⟨by decide, by simp [initState], by simp [initState], by simp [initState],
    by simp [initState], ?_⟩
  intro t ht
  simp [initState] at ht

theorem stepR_preserves {s s' : BoothState} (h : BoothInv s) (hs : StepR s s') :
    BoothInv s' := by
  obtain ⟨hA, hB, hC, hD, hE, hG⟩ := h
  cases hs with
  | startSession hscr =>
      refine ⟨hA, hB, hC, ?_, ?_, hG⟩
      · intro hcam
        simp at hcam
      · intro hpre
        simp at hpre
  | selectTemplate t hscr hemp =>
      refine ⟨hA, hB, ?_, ?_, ?_, ?_⟩
      · intro hnone
        simp at hnone
      · intro _
        simp
      · intro hpre
        simp at hpre
      · intro t' ht'
        simp only at ht'
        constructor
        · show s.capturedPhotos.length ≤ t'.requiredCount
          simp [hemp]
        · intro _
          show s.capturedPhotos.length < t'.requiredCount
          have := requiredCount_pos t'
          simp [hemp]
          omega
  | backToStart hscr =>
      refine ⟨hA, hB, hC, ?_, ?_, hG⟩
      · intro hcam
        simp at hcam
      · intro hpre
        simp at hpre
  | pressShutter hscr hcd hrem =>
      have htm0 : s.timers = 0 := hB.mp hcd
      refine ⟨?_, ?_, hC, hD, ?_, ?_⟩
      · show s.timers + 1 ≤ 1
        omega
      · show (some (3 : ℤ) = none ↔ s.timers + 1 = 0)
        constructor
        · intro hcon
          simp at hcon
        · intro hcon
          omega
      · intro hpre
        have hpre2 : s.currentScreen = Screen.preview := hpre
        rw [hscr] at hpre2
        simp at hpre2
      · intro t ht
        have hbound := hG t ht
        have hr := remainingPhotos_eq s t ht
        rw [hr] at hrem
        have hlt : s.capturedPhotos.length < t.requiredCount := by
          omega
        exact ⟨Nat.le_of_lt hlt, fun _ => hlt⟩
  | timerFires ph htm =>
      have hcdne : s.countdown ≠ none := by
        intro hcd
        have := hB.mp hcd
        omega
      obtain ⟨p, hp⟩ := Option.ne_none_iff_exists'.mp hcdne
      have htm1 : s.timers = 1 := by
        omega
      by_cases hple : p ≤ 1
      · have hfscr : (timerTickFn s ph).currentScreen = s.currentScreen := by
          simp [timerTickFn, hp, hple, capturePhotoFn_screen]
        have hftpl : (timerTickFn s ph).selectedTemplate = s.selectedTemplate := by
          simp [timerTickFn, hp, hple, capturePhotoFn_template]
        have hfcd : (timerTickFn s ph).countdown = none := by
          simp [timerTickFn, hp, hple]
        have hftm : (timerTickFn s ph).timers = s.timers - 1 := by
          simp [timerTickFn, hp, hple]
        have hfph : (timerTickFn s ph).capturedPhotos
            = if s.currentScreen = Screen.camera then s.capturedPhotos ++ [ph]
              else s.capturedPhotos := by
          simp only [timerTickFn, hp, hple, if_true]
          exact capturePhotoFn_photos s ph
        refine ⟨?_, ?_, ?_, ?_, ?_, ?_⟩
        · rw [hftm]
          omega
        · rw [hfcd, hftm]
          simp
          omega
        · intro hnone
          rw [hftpl] at hnone
          rw [hfph]
          by_cases hscr : s.currentScreen = Screen.camera
          · exact absurd hnone (hD hscr)
          · simp [hscr, hC hnone]
        · intro hcam
          rw [hfscr] at hcam
          rw [hftpl]
          exact hD hcam
        · intro _
          exact hfcd
        · intro t ht
          rw [hftpl] at ht
          have hstrict := (hG t ht).2 (by rw [hp]; simp)
          constructor
          · rw [hfph]
            by_cases hscr : s.currentScreen = Screen.camera
            · simp [hscr]
              omega
            · simp [hscr]
              omega
          · intro hcon
            rw [hfcd] at hcon
            exact absurd rfl hcon
      · have htick : timerTickFn s ph = { s with countdown := some (p - 1) } := by
          simp [timerTickFn, hp, hple]
        rw [htick]
        refine ⟨hA, ?_, hC, hD, ?_, ?_⟩
        · show (some (p - 1) = none ↔ s.timers = 0)
          constructor
          · intro hcon
            simp at hcon
          · intro hcon
            omega
        · intro hpre
          have hpre2 : s.currentScreen = Screen.preview := hpre
          have := hE hpre2
          rw [hp] at this
          simp at this
        · intro t ht
          have ht2 : s.selectedTemplate = some t := ht
          have hbound := hG t ht2
          have hstrict := hbound.2 (by rw [hp]; simp)
          exact ⟨hbound.1, fun _ => hstrict⟩
  | pressRetry hscr =>
      refine ⟨hA, hB, ?_, hD, hE, ?_⟩
      · intro _
        rfl
      · intro t ht
        have := requiredCount_pos t
        constructor
        · show ([] : List CapturedPhoto).length ≤ t.requiredCount
          simp
        · intro _
          show ([] : List CapturedPhoto).length < t.requiredCount
          simp
          omega
  | backToTemplates hscr =>
      refine ⟨hA, hB, hC, ?_, ?_, hG⟩
      · intro hcam
        simp at hcam
      · intro hpre
        simp at hpre
  | openPreview hscr hrem =>
      have hcd : s.countdown = none := by
        by_contra hne
        obtain ⟨t, ht⟩ := Option.ne_none_iff_exists'.mp (hD hscr)
        have hstrict := (hG t ht).2 hne
        have hr := remainingPhotos_eq s t ht
        rw [hr] at hrem
        omega
      refine ⟨hA, hB, hC, ?_, ?_, hG⟩
      · intro hcam
        simp at hcam
      · intro _
        exact hcd
  | newSession hscr =>
      refine ⟨hA, hB, ?_, ?_, ?_, ?_⟩
      · intro _
        rfl
      · intro hcam
        simp at hcam
      · intro hpre
        simp at hpre
      · intro t ht
        simp at ht

theorem boothInv_reachableR (s : BoothState) (hr : ReachableR s) : BoothInv s := by
  induction hr with
  | refl => exact boothInv_init
  | tail _ hstep ih => exact stepR_preserves ih hstep

/-- C1 counterexample: template selection (lines 314-320) does not reset
the captured photos, so the bound fails on a reachable run of the
unmodified UI: select grid, capture two photos through two full
countdown cycles, go back to the template screen, select single - the
state now has the single template (required count 1) active with 2
captured photos. -/
theorem c1_counterexample :
    Reachable ⟨Screen.camera, some Template.single,
      [⟨"1", "d1", 1⟩, ⟨"2", "d2", 2⟩], 2, none, 0⟩ ∧
    Template.requiredCount Template.single
      < ([⟨"1", "d1", 1⟩, ⟨"2", "d2", 2⟩] : List CapturedPhoto).length := by
  constructor
  · have h01 : Step ⟨Screen.start, none, [], 0, none, 0⟩
        ⟨Screen.template, none, [], 0, none, 0⟩ :=
      Step.startSession _ rfl
    have h12 : Step ⟨Screen.template, none, [], 0, none, 0⟩
        ⟨Screen.camera, some Template.grid, [], 0, none, 0⟩ :=
      Step.selectTemplate _ Template.grid rfl
    have h23 : Step ⟨Screen.camera, some Template.grid, [], 0, none, 0⟩
        ⟨Screen.camera, some Template.grid, [], 0, some 3, 1⟩ :=
      Step.pressShutter _ rfl rfl (by decide)
    have h34 : Step ⟨Screen.camera, some Template.grid, [], 0, some 3, 1⟩
        ⟨Screen.camera, some Template.grid, [], 0, some 2, 1⟩ := by
      have h := Step.timerFires ⟨Screen.camera, some Template.grid, [], 0, some 3, 1⟩
        ⟨"1", "d1", 1⟩ (by decide)
      rwa [show timerTickFn ⟨Screen.camera, some Template.grid, [], 0, some 3, 1⟩
        ⟨"1", "d1", 1⟩ = ⟨Screen.camera, some Template.grid, [], 0, some 2, 1⟩ from by
          norm_num [timerTickFn, capturePhotoFn]] at h
    have h45 : Step ⟨Screen.camera, some Template.grid, [], 0, some 2, 1⟩
        ⟨Screen.camera, some Template.grid, [], 0, some 1, 1⟩ := by
      have h := Step.timerFires ⟨Screen.camera, some Template.grid, [], 0, some 2, 1⟩
        ⟨"1", "d1", 1⟩ (by decide)
      rwa [show timerTickFn ⟨Screen.camera, some Template.grid, [], 0, some 2, 1⟩
        ⟨"1", "d1", 1⟩ = ⟨Screen.camera, some Template.grid, [], 0, some 1, 1⟩ from by
          norm_num [timerTickFn, capturePhotoFn]] at h
    have h56 : Step ⟨Screen.camera, some Template.grid, [], 0, some 1, 1⟩
        ⟨Screen.camera, some Template.grid, [⟨"1", "d1", 1⟩], 1, none, 0⟩ := by
      have h := Step.timerFires ⟨Screen.camera, some Template.grid, [], 0, some 1, 1⟩
        ⟨"1", "d1", 1⟩ (by decide)
      rwa [show timerTickFn ⟨Screen.camera, some Template.grid, [], 0, some 1, 1⟩
        ⟨"1", "d1", 1⟩ = ⟨Screen.camera, some Template.grid, [⟨"1", "d1", 1⟩], 1, none, 0⟩ from by
          norm_num [timerTickFn, capturePhotoFn]] at h
    have h67 : Step ⟨Screen.camera, some Template.grid, [⟨"1", "d1", 1⟩], 1, none, 0⟩
        ⟨Screen.camera, some Template.grid, [⟨"1", "d1", 1⟩], 1, some 3, 1⟩ :=
      Step.pressShutter _ rfl rfl (by decide)
    have h78 : Step ⟨Screen.camera, some Template.grid, [⟨"1", "d1", 1⟩], 1, some 3, 1⟩
        ⟨Screen.camera, some Template.grid, [⟨"1", "d1", 1⟩], 1, some 2, 1⟩ := by
      have h := Step.timerFires ⟨Screen.camera, some Template.grid, [⟨"1", "d1", 1⟩], 1, some 3, 1⟩
        ⟨"2", "d2", 2⟩ (by decide)
      rwa [show timerTickFn ⟨Screen.camera, some Template.grid, [⟨"1", "d1", 1⟩], 1, some 3, 1⟩
        ⟨"2", "d2", 2⟩ = ⟨Screen.camera, some Template.grid, [⟨"1", "d1", 1⟩], 1, some 2, 1⟩ from by
          norm_num [timerTickFn, capturePhotoFn]] at h
    have h89 : Step ⟨Screen.camera, some Template.grid, [⟨"1", "d1", 1⟩], 1, some 2, 1⟩
        ⟨Screen.camera, some Template.grid, [⟨"1", "d1", 1⟩], 1, some 1, 1⟩ := by
      have h := Step.timerFires ⟨Screen.camera, some Template.grid, [⟨"1", "d1", 1⟩], 1, some 2, 1⟩
        ⟨"2", "d2", 2⟩ (by decide)
      rwa [show timerTickFn ⟨Screen.camera, some Template.grid, [⟨"1", "d1", 1⟩], 1, some 2, 1⟩
        ⟨"2", "d2", 2⟩ = ⟨Screen.camera, some Template.grid, [⟨"1", "d1", 1⟩], 1, some 1, 1⟩ from by
          norm_num [timerTickFn, capturePhotoFn]] at h
    have h910 : Step ⟨Screen.camera, some Template.grid, [⟨"1", "d1", 1⟩], 1, some 1, 1⟩
        ⟨Screen.camera, some Template.grid, [⟨"1", "d1", 1⟩, ⟨"2", "d2", 2⟩], 2, none, 0⟩ := by
      have h := Step.timerFires ⟨Screen.camera, some Template.grid, [⟨"1", "d1", 1⟩], 1, some 1, 1⟩
        ⟨"2", "d2", 2⟩ (by decide)
      rwa [show timerTickFn ⟨Screen.camera, some Template.grid, [⟨"1", "d1", 1⟩], 1, some 1, 1⟩
        ⟨"2", "d2", 2⟩
        = ⟨Screen.camera, some Template.grid, [⟨"1", "d1", 1⟩, ⟨"2", "d2", 2⟩], 2, none, 0⟩ from by
          norm_num [timerTickFn, capturePhotoFn]] at h
    have h1011 : Step ⟨Screen.camera, some Template.grid,
        [⟨"1", "d1", 1⟩, ⟨"2", "d2", 2⟩], 2, none, 0⟩
        ⟨Screen.template, some Template.grid, [⟨"1", "d1", 1⟩, ⟨"2", "d2", 2⟩], 2, none, 0⟩ :=
      Step.backToTemplates _ rfl
    have h1112 : Step ⟨Screen.template, some Template.grid,
        [⟨"1", "d1", 1⟩, ⟨"2", "d2", 2⟩], 2, none, 0⟩
        ⟨Screen.camera, some Template.single, [⟨"1", "d1", 1⟩, ⟨"2", "d2", 2⟩], 2, none, 0⟩ :=
      Step.selectTemplate _ Template.single rfl
    exact Relation.ReflTransGen.tail (Relation.ReflTransGen.tail (Relation.ReflTransGen.tail
      (Relation.ReflTransGen.tail (Relation.ReflTransGen.tail (Relation.ReflTransGen.tail
      (Relation.ReflTransGen.tail (Relation.ReflTransGen.tail (Relation.ReflTransGen.tail
      (Relation.ReflTransGen.tail (Relation.ReflTransGen.tail (Relation.ReflTransGen.tail
      Relation.ReflTransGen.refl h01) h12) h23) h34) h45) h56) h67) h78) h89) h910) h1011) h1112
  · decide

/-- C1 (amended): the sequence bound holds for every reachable run in
which a template is only ever selected while the captured-photo
sequence is empty: while template T is active, the number of captured
photos never exceeds T's required count (3 for strip, 4 for grid, 3 for
collage, 1 for single, per the templates array), the UI guards on the
shutter ensuring each countdown starts strictly below the bound. -/
theorem c1_sequence_bound (s : BoothState) (t : Template) :
    ReachableR s → s.selectedTemplate = some t →
    s.capturedPhotos.length ≤ t.requiredCount := by
  intro hr hsel
  exact ((boothInv_reachableR s hr).2.2.2.2.2 t hsel).1

/-- Witness for C1 (amended): select grid from the empty initial
session and check the bound there. -/
theorem c1_sequence_bound_witness :
    ([] : List CapturedPhoto).length ≤ Template.requiredCount Template.grid := by
  have h01 : StepR ⟨Screen.start, none, [], 0, none, 0⟩
      ⟨Screen.template, none, [], 0, none, 0⟩ :=
    StepR.startSession _ rfl
  have h12 : StepR ⟨Screen.template, none, [], 0, none, 0⟩
      ⟨Screen.camera, some Template.grid, [], 0, none, 0⟩ :=
    StepR.selectTemplate _ Template.grid rfl rfl
  exact c1_sequence_bound ⟨Screen.camera, some Template.grid, [], 0, none, 0⟩ Template.grid
    (Relation.ReflTransGen.tail (Relation.ReflTransGen.tail Relation.ReflTransGen.refl h01) h12)
    rfl

/-- C2 counterexample: startCountdown (lines 108-120) has no guard: in a
state with a countdown already running (countdown 2, one live
interval), invoking it is not a no-op - it restarts the countdown at 3
and registers a second interval.  Moreover, from an idle camera state,
two invocations followed by the four resulting interval ticks capture
TWO photos, because the second surviving interval observes a null
countdown, and the null branch of the tick also calls capturePhoto. -/
theorem c2_counterexample :
    startCountdownFn ⟨Screen.camera, some Template.grid, [], 0, some 2, 1⟩
      ≠ ⟨Screen.camera, some Template.grid, [], 0, some 2, 1⟩ ∧
    (timerTickFn (timerTickFn (timerTickFn (timerTickFn
        (startCountdownFn (startCountdownFn
          ⟨Screen.camera, some Template.grid, [], 0, none, 0⟩))
        ⟨"a", "da", 1⟩) ⟨"b", "db", 2⟩) ⟨"c", "dc", 3⟩) ⟨"d", "dd", 4⟩).capturedPhotos.length
      = 2 := by
  constructor
  · decide
  · decide

/-- C2 (amended): startCountdown is not re-entrant - a further
invocation while a countdown runs restarts the displayed countdown and
registers an extra interval (see the counterexample).  What does hold
is the single-cycle contract: from a state with no countdown and no
live interval, on the camera screen, one invocation followed by the
three ticks of its interval appends exactly one captured photo and
clears the countdown state back to not-counting. -/
theorem c2_countdown_cycle (s : BoothState) (ph1 ph2 ph3 : CapturedPhoto) :
    s.countdown = none → s.timers = 0 → s.currentScreen = Screen.camera →
    (timerTickFn (timerTickFn (timerTickFn (startCountdownFn s) ph1) ph2) ph3).capturedPhotos
        = s.capturedPhotos ++ [ph3] ∧
    (timerTickFn (timerTickFn (timerTickFn (startCountdownFn s) ph1) ph2) ph3).countdown
        = none ∧
    (timerTickFn (timerTickFn (timerTickFn (startCountdownFn s) ph1) ph2) ph3).timers = 0 := by
  intro hcd htm hscr
  have e1 : timerTickFn (startCountdownFn s) ph1
      = { s with countdown := some 2, timers := s.timers + 1 } := by
    norm_num [timerTickFn, startCountdownFn]
  have e2 : timerTickFn { s with countdown := some 2, timers := s.timers + 1 } ph2
      = { s with countdown := some 1, timers := s.timers + 1 } := by
    norm_num [timerTickFn]
  have e3 : timerTickFn { s with countdown := some 1, timers := s.timers + 1 } ph3
      = { capturePhotoFn { s with countdown := some 1, timers := s.timers + 1 } ph3 with
          countdown := none, timers := s.timers + 1 - 1 } := by
    norm_num [timerTickFn]
  rw [e1, e2, e3]
  refine ⟨?_, rfl, ?_⟩
  · rw [show ({ capturePhotoFn { s with countdown := some 1, timers := s.timers + 1 } ph3 with
        countdown := none, timers := s.timers + 1 - 1 } : BoothState).capturedPhotos
        = (capturePhotoFn { s with countdown := some 1, timers := s.timers + 1 } ph3).capturedPhotos
        from rfl]
    rw [capturePhotoFn_photos]
    simp [hscr]
  · show s.timers + 1 - 1 = 0
    omega

/-- Witness for C2 (amended): one full countdown cycle from an idle
camera state with the grid template captures exactly one photo. -/
theorem c2_countdown_cycle_witness :
    (timerTickFn (timerTickFn (timerTickFn
        (startCountdownFn ⟨Screen.camera, some Template.grid, [], 0, none, 0⟩)
        ⟨"1", "d1", 1⟩) ⟨"2", "d2", 2⟩) ⟨"3", "d3", 3⟩).capturedPhotos
      = [⟨"3", "d3", 3⟩] ∧
    (timerTickFn (timerTickFn (timerTickFn
        (startCountdownFn ⟨Screen.camera, some Template.grid, [], 0, none, 0⟩)
        ⟨"1", "d1", 1⟩) ⟨"2", "d2", 2⟩) ⟨"3", "d3", 3⟩).countdown = none ∧
    (timerTickFn (timerTickFn (timerTickFn
        (startCountdownFn ⟨Screen.camera, some Template.grid, [], 0, none, 0⟩)
        ⟨"1", "d1", 1⟩) ⟨"2", "d2", 2⟩) ⟨"3", "d3", 3⟩).timers = 0 :=
  c2_countdown_cycle ⟨Screen.camera, some Template.grid, [], 0, none, 0⟩
    ⟨"1", "d1", 1⟩ ⟨"2", "d2", 2⟩ ⟨"3", "d3", 3⟩ rfl rfl rfl
